import Mathlib

/-!
Verification of the property-data-analysis repository: a shallow embedding of
`src/task1_data_parsing.py` and `src/task2_data_mapping.py` in Lean 4,
together with theorems settling the specification claims.

Modelling conventions:
- Python exceptions become an explicit `PyError` value in `Except`.
- Python `float` values parsed from the decimal numerals occurring in the
  data are modelled exactly by `Dec` (a scaled decimal, value
  `mant / 10 ^ exp`); its rational value is given by `Dec.val`.
- Python strings are Lean `String`s; `str.split(sep)` for the single-character
  separators used by the source is `strSplitOn`, implemented structurally.
- Python lists/dicts become Lean lists; the insertion-ordered dict with
  overwrite-in-place semantics is modelled by `dictInsert`.
- The haversine distance lives in `ℝ`; it is modelled from the spec because
  `utils/haversine.py` is not part of the sources.
-/

/-- The Python exception classes that the two scripts can raise:
`ValueError` (from `float`/`int` conversion and from the explicit range
checks) and `IndexError` (from out-of-range list indexing). -/
inductive PyError where
  | valueError (msg : String)
  | indexError
deriving DecidableEq, Repr

/-- The exception class name of a `PyError`, ignoring the message. -/
def PyError.kindName : PyError → String
  | .valueError _ => "ValueError"
  | .indexError => "IndexError"

deriving instance DecidableEq for Except

/-- Python `s.split(sep)` for a single-character separator `sep` (the source
only splits on `','`, `' '` and `';'`): consecutive separators yield empty
fields and the result is never empty. -/
def strSplitOn (s : String) (sep : Char) : List String :=
  (s.toList.splitOn sep).map String.mk

/-- Python list indexing `l[i]` for a non-negative index: the element, or
`IndexError` when the index is out of range. -/
def pyIndex {α : Type} (l : List α) (i : Nat) : Except PyError α :=
  match l.get? i with
  | some v => Except.ok v
  | none => Except.error PyError.indexError

/-- Python list indexing `l[-k]` for a positive `k` counted from the end:
`l[-k] = l[l.length - k]` when `k ≤ l.length`, `IndexError` otherwise.
The source uses it as `separated_address[-3]`. -/
def pyNegIndex {α : Type} (l : List α) (k : Nat) : Except PyError α :=
  if 0 < k ∧ k ≤ l.length then
    match l.get? (l.length - k) with
    | some v => Except.ok v
    | none => Except.error PyError.indexError
  else Except.error PyError.indexError

/-- An exact scaled decimal: the value of the Python float parsed from a
decimal numeral with `exp` fractional digits, namely `mant / 10 ^ exp`. -/
structure Dec where
  mant : Int
  exp : Nat
deriving DecidableEq, Repr

/-- The rational value of a scaled decimal. -/
def Dec.val (d : Dec) : ℚ := (d.mant : ℚ) / (10 : ℚ) ^ d.exp

/-- Integer lower bound test `k ≤ d` on the exact value, by cross
multiplication (kernel-computable, unlike `ℚ` comparison). -/
def intLeDec (k : Int) (d : Dec) : Bool := decide (k * (10 : Int) ^ d.exp ≤ d.mant)

/-- Integer upper bound test `d ≤ k` on the exact value. -/
def decLeInt (d : Dec) (k : Int) : Bool := decide (d.mant ≤ k * (10 : Int) ^ d.exp)

/-- Whether every character in the list is a decimal digit. -/
def allDigits (cs : List Char) : Bool := cs.all Char.isDigit

/-- The natural number denoted by a list of decimal digits. -/
def digitsToNat (cs : List Char) : Nat :=
  cs.foldl (fun acc c => 10 * acc + (c.toNat - 48)) 0

/-- The exact value of an unsigned decimal numeral (an integer part,
optionally followed by a dot and a fractional part, at least one of the two
parts non-empty), or `none` when the text is not such a numeral.  Models the
numerals accepted by Python `float` in this repository's data. -/
def decimalVal (cs : List Char) : Option Dec :=
  match cs.splitOn '.' with
  | [ip] =>
      if ip ≠ [] ∧ allDigits ip then some ⟨(digitsToNat ip : Int), 0⟩ else none
  | [ip, fp] =>
      if (ip ≠ [] ∨ fp ≠ []) ∧ allDigits ip ∧ allDigits fp then
        some ⟨(digitsToNat ip : Int) * (10 : Int) ^ fp.length + (digitsToNat fp : Int), fp.length⟩
      else none
  | _ => none

/-- The value of a signed decimal numeral, as accepted by Python `float`. -/
def pyFloatCore (s : String) : Option Dec :=
  match s.toList with
  | '-' :: rest => (decimalVal rest).map (fun d => ⟨-d.mant, d.exp⟩)
  | '+' :: rest => decimalVal rest
  | cs => decimalVal cs

/-- Python `float(s)` on the decimal numerals occurring in this repository's
data: the exact value, or `ValueError` for malformed numeric text. -/
def pyFloat (s : String) : Except PyError Dec :=
  match pyFloatCore s with
  | some d => Except.ok d
  | none => Except.error (PyError.valueError ("could not convert string to float: " ++ s))

/-- The value of a signed decimal integer numeral, as accepted by Python `int`. -/
def pyIntCore (s : String) : Option Int :=
  match s.toList with
  | '-' :: rest => if rest ≠ [] ∧ allDigits rest then some (-(digitsToNat rest : Int)) else none
  | '+' :: rest => if rest ≠ [] ∧ allDigits rest then some ((digitsToNat rest : Int)) else none
  | cs => if cs ≠ [] ∧ allDigits cs then some ((digitsToNat cs : Int)) else none

/-- Python `int(s)` on decimal integer numerals: the value, or `ValueError`
for malformed numeric text. -/
def pyInt (s : String) : Except PyError Int :=
  match pyIntCore s with
  | some n => Except.ok n
  | none => Except.error (PyError.valueError ("invalid literal for int with base 10: " ++ s))

/-- The structured property record built by `extract_information`
(task1_data_parsing.py, lines 103-118).  Optional numeric fields are `none`
when the raw field was the empty string. -/
structure PropertyDict where
  prop_id : String
  prop_type : String
  full_address : String
  suburb : String
  bedrooms : Option Int
  bathrooms : Option Int
  parking_spaces : Option Int
  latitude : Option Dec
  longitude : Option Dec
  floor_number : Option Int
  land_area : Option Int
  floor_area : Option Int
  price : Option Int
  property_features : List String
deriving DecidableEq, Repr

/-- Lines 91-94 of task1_data_parsing.py: if the raw latitude field is
non-empty, parse it as a float and raise
`ValueError("Latitude must be within the range -90 to 90 degrees.")`
unless `-90 <= latitude <= 90`; an empty field yields `None`. -/
def parseLatitude (s : String) : Except PyError (Option Dec) :=
  if s = "" then Except.ok none
  else match pyFloat s with
    | Except.error e => Except.error e
    | Except.ok v =>
        if ¬(intLeDec (-90) v ∧ decLeInt v 90) then
          Except.error (PyError.valueError "Latitude must be within the range -90 to 90 degrees.")
        else Except.ok (some v)

/-- Lines 97-100 of task1_data_parsing.py: the same for longitude with the
range `-180 <= longitude <= 180`. -/
def parseLongitude (s : String) : Except PyError (Option Dec) :=
  if s = "" then Except.ok none
  else match pyFloat s with
    | Except.error e => Except.error e
    | Except.ok v =>
        if ¬(intLeDec (-180) v ∧ decLeInt v 180) then
          Except.error (PyError.valueError "Longitude must be within the range -180 to 180 degrees.")
        else Except.ok (some v)

/-- Python `int(parts[i]) if parts[i] else None`: index the field (possible
`IndexError`), return `none` on the empty string, otherwise parse an integer
(possible `ValueError`). -/
def pyOptIntAt (parts : List String) (i : Nat) : Except PyError (Option Int) := do
  let s ← pyIndex parts i
  if s = "" then
    return none
  else
    let n ← pyInt s
    return (some n)

/-- `extract_information` (task1_data_parsing.py, lines 73-120): split the
raw line on commas, derive the property type from a unit separator in the
first address token and the suburb from the third-from-last address token,
validate coordinates, parse the optional numeric fields, and split the
features field on semicolons.  Sub-expressions are evaluated in the same
order as in the Python source, so the first failing one determines the
raised error. -/
def extract_information (property_string : String) : Except PyError PropertyDict := do
  let parts := strSplitOn property_string ','
  let address ← pyIndex parts 1
  let separated_address := strSplitOn address ' '
  let firstTok ← pyIndex separated_address 0
  let prop_type := if '/' ∈ firstTok.toList then "apartment" else "house"
  let suburb ← pyNegIndex separated_address 3
  let p5 ← pyIndex parts 5
  let latitude ← parseLatitude p5
  let p6 ← pyIndex parts 6
  let longitude ← parseLongitude p6
  let prop_id ← pyIndex parts 0
  let bedrooms ← pyOptIntAt parts 2
  let bathrooms ← pyOptIntAt parts 3
  let parking_spaces ← pyOptIntAt parts 4
  let floor_number ← pyOptIntAt parts 7
  let land_area ← pyOptIntAt parts 8
  let floor_area ← pyOptIntAt parts 9
  let price ← pyOptIntAt parts 10
  let p11 ← pyIndex parts 11
  return { prop_id := prop_id, prop_type := prop_type, full_address := address,
           suburb := suburb, bedrooms := bedrooms, bathrooms := bathrooms,
           parking_spaces := parking_spaces, latitude := latitude, longitude := longitude,
           floor_number := floor_number, land_area := land_area, floor_area := floor_area,
           price := price,
           property_features := if p11 = "" then [] else strSplitOn p11 ';' }

/-- `add_feature` (task1_data_parsing.py, lines 137-140): append the feature
to the feature list only if it is not already present.  Python mutates the
record in place; the embedding returns the updated record. -/
def add_feature (property_dict : PropertyDict) (feature : String) : PropertyDict :=
  if feature ∈ property_dict.property_features then property_dict
  else { property_dict with property_features := property_dict.property_features ++ [feature] }

/-- `remove_feature` (task1_data_parsing.py, lines 143-146): remove the first
occurrence of the feature from the feature list if present. -/
def remove_feature (property_dict : PropertyDict) (feature : String) : PropertyDict :=
  if feature ∈ property_dict.property_features then
    { property_dict with property_features := property_dict.property_features.erase feature }
  else property_dict

/-- The driver loop of `main` (task1_data_parsing.py, lines 160-165) applied
to the list of input lines: each line is parsed; a `ValueError` is caught,
logged and the line skipped; any other exception (in particular
`IndexError`) propagates and aborts the run, in which case no output file is
written. -/
def mainProcess : List String → Except PyError (List PropertyDict)
  | [] => Except.ok []
  | l :: ls =>
    match extract_information l with
    | Except.ok p => (mainProcess ls).map (fun rest => p :: rest)
    | Except.error (PyError.valueError _) => mainProcess ls
    | Except.error e => Except.error e

/-- A train-station record as built by `process_stations`
(task2_data_mapping.py, lines 86-98): id, display name and float
coordinates (parsed with no range validation). -/
structure Station where
  stop_id : String
  stop_name : String
  stop_lat : Dec
  stop_lon : Dec
deriving DecidableEq, Repr

/-- The record returned by `find_nearest_station`
(task2_data_mapping.py, lines 116-119). -/
structure NearestMatch where
  property_id : String
  nearest_station : Option String
deriving DecidableEq, Repr

/-- The real value of a scaled decimal. -/
noncomputable def Dec.valR (d : Dec) : ℝ := ((d.val : ℚ) : ℝ)

open Classical in
/-- Modelled from the spec: `math.atan2 y x`, the angle of the point
`(x, y)`, needed by the haversine formula of spec section 4.2 because
`utils/haversine.py` is not among the sources. -/
noncomputable def atan2 (y x : ℝ) : ℝ :=
  if 0 < x then Real.arctan (y / x)
  else if x < 0 then
    (if 0 ≤ y then Real.arctan (y / x) + Real.pi else Real.arctan (y / x) - Real.pi)
  else (if 0 < y then Real.pi / 2 else if y < 0 then -(Real.pi / 2) else 0)

/-- Modelled from the spec: degrees-to-radians conversion used by the
haversine formula. -/
noncomputable def toRad (x : ℝ) : ℝ := x * (Real.pi / 180)

/-- Modelled from the spec: the intermediate value
`a = sin²(Δlat/2) + cos(lat1)·cos(lat2)·sin²(Δlon/2)` of the haversine
formula, on latitudes/longitudes in degrees. -/
noncomputable def havTerm (lat1 lon1 lat2 lon2 : ℝ) : ℝ :=
  Real.sin ((toRad lat2 - toRad lat1) / 2) ^ 2 +
    Real.cos (toRad lat1) * Real.cos (toRad lat2) * Real.sin ((toRad lon2 - toRad lon1) / 2) ^ 2

/-- Modelled from the spec: `haversine_distance` of the absent
`utils/haversine.py`, per spec section 4.2: `c = 2·atan2(√a, √(1−a))`,
`distance = R·c` with `R = 6371` kilometers (the Earth's mean radius). -/
noncomputable def haversine_distance (lat1 lon1 lat2 lon2 : ℝ) : ℝ :=
  6371 * (2 * atan2 (Real.sqrt (havTerm lat1 lon1 lat2 lon2))
    (Real.sqrt (1 - havTerm lat1 lon1 lat2 lon2)))

/-- The haversine distance from a property at `(plat, plon)` to a station,
as invoked by `find_nearest_station` (task2_data_mapping.py, lines 108-111). -/
noncomputable def stationDistance (plat plon : Dec) (st : Station) : ℝ :=
  haversine_distance plat.valR plon.valR st.stop_lat.valR st.stop_lon.valR

open Classical in
/-- The selection loop of `find_nearest_station` (task2_data_mapping.py,
lines 106-114): iterate over the stations, keeping the current best name
and the current minimum distance, updating only on a strict improvement
`distance < min_distance`.  The initial `float('inf')` is modelled by `⊤`
in `EReal`. -/
noncomputable def nearestGo (d : Station → ℝ) :
    List Station → Option String → EReal → Option String
  | [], best, _ => best
  | st :: rest, best, minD =>
    if ((d st : ℝ) : EReal) < minD then nearestGo d rest (some st.stop_name) ((d st : ℝ) : EReal)
    else nearestGo d rest best minD

/-- `find_nearest_station` (task2_data_mapping.py, lines 101-119) for a
property with id `prop_id` located at `(plat, plon)` (the fields of
`property_info` the function reads): scan the stations and return the name
of the first strictly-improving minimum, or `None` when no station was
scanned. -/
noncomputable def find_nearest_station (prop_id : String) (plat plon : Dec)
    (stations : List Station) : NearestMatch :=
  { property_id := prop_id,
    nearest_station := nearestGo (stationDistance plat plon) stations none ⊤ }

/-- Python truthiness of an optional float field, as used by the coordinate
filter `if property_info['latitude'] and property_info['longitude']`
(task2_data_mapping.py, line 81): `None` and `0.0` are falsy. -/
def pyTruthy : Option Dec → Bool
  | none => false
  | some d => decide ¬(d.mant = 0)

/-- Insertion into a Python dict rendered as an insertion-ordered
association list: an existing key keeps its position and gets the new
value, a new key is appended at the end. -/
def dictInsert (k : String) (v : PropertyDict) (d : List (String × PropertyDict)) :
    List (String × PropertyDict) :=
  if d.any (fun kv => kv.1 = k) then d.map (fun kv => if kv.1 = k then (k, v) else kv)
  else d ++ [(k, v)]

/-- The loop of `process_properties` (task2_data_mapping.py, lines 79-82)
over the data lines (the header line is already skipped by `next(file)`):
parse each line with `extract_information` (no exception handling here, so
any error aborts the run), keep only the records whose coordinates are both
truthy, and index them by property id. -/
def processPropLines : List String → List (String × PropertyDict) →
    Except PyError (List (String × PropertyDict))
  | [], acc => Except.ok acc
  | l :: ls, acc =>
    match extract_information l with
    | Except.error e => Except.error e
    | Except.ok p =>
        processPropLines ls
          (if pyTruthy p.latitude && pyTruthy p.longitude then dictInsert p.prop_id p acc else acc)

/-- `process_properties` (task2_data_mapping.py, lines 75-83) on the data
lines of the properties file. -/
def process_properties (lines : List String) : Except PyError (List (String × PropertyDict)) :=
  processPropLines lines []

/-- `process_data` (task2_data_mapping.py, lines 122-132) with the station
collection already loaded: build the filtered property dict, then produce
one `NearestMatch` per entry by calling `find_nearest_station` with the
entry's id and coordinates (both coordinates are truthy, hence present, for
every retained entry; `Option.getD` only names the value the source reads
directly). -/
noncomputable def process_data (lines : List String) (stations : List Station) :
    Except PyError (List NearestMatch) :=
  (process_properties lines).map (fun props =>
    props.map (fun kv =>
      find_nearest_station kv.2.prop_id (kv.2.latitude.getD ⟨0, 0⟩) (kv.2.longitude.getD ⟨0, 0⟩)
        stations))

/-- Whether a character counts as whitespace for Python `str.strip()`. -/
def isPySpace (c : Char) : Bool := (c == ' ') || (c == '\t') || (c == '\n') || (c == '\r')

/-- Python `str.strip()` on the whitespace characters above: drop leading
and trailing whitespace. -/
def strTrim (s : String) : String :=
  String.mk (((s.toList.dropWhile isPySpace).reverse.dropWhile isPySpace).reverse)

/-- Modelled from the spec: the feature-field reading claimed by the spec
("split on a secondary delimiter (semicolon) into an ordered sequence of
trimmed tags"), for comparison with what the code computes. -/
def trimmedFeatureSplit (f : String) : List String :=
  if f = "" then [] else (strSplitOn f ';').map strTrim

/-- The record parsed from the valid line
`"P1,1 A B C 1,,,,-38,145,,,,,"` (used as a concrete evaluation point). -/
def goodRecord : PropertyDict :=
  { prop_id := "P1", prop_type := "house", full_address := "1 A B C 1", suburb := "B",
    bedrooms := none, bathrooms := none, parking_spaces := none,
    latitude := some ⟨-38, 0⟩, longitude := some ⟨145, 0⟩, floor_number := none,
    land_area := none, floor_area := none, price := none, property_features := [] }

/-- The record parsed from `"P1,1 A B C 1,,,,,,,,,,a;b"` (two feature tags). -/
def featRecord : PropertyDict :=
  { prop_id := "P1", prop_type := "house", full_address := "1 A B C 1", suburb := "B",
    bedrooms := none, bathrooms := none, parking_spaces := none,
    latitude := none, longitude := none, floor_number := none,
    land_area := none, floor_area := none, price := none, property_features := ["a", "b"] }

/-- The record parsed from `"P2,1/5 A B C 1,,,,,,,,,,"` (a unit-separator
in the first address token). -/
def aptRecord : PropertyDict :=
  { prop_id := "P2", prop_type := "apartment", full_address := "1/5 A B C 1", suburb := "B",
    bedrooms := none, bathrooms := none, parking_spaces := none,
    latitude := none, longitude := none, floor_number := none,
    land_area := none, floor_area := none, price := none, property_features := [] }

/-- A reachable property record whose feature list already holds a
duplicate tag (`extract_information` on a features field `"a;a"` produces
it, see the corresponding theorem). -/
def dupFeatureRecord : PropertyDict :=
  { prop_id := "P1", prop_type := "house", full_address := "1 A B C 1", suburb := "B",
    bedrooms := none, bathrooms := none, parking_spaces := none,
    latitude := none, longitude := none, floor_number := none,
    land_area := none, floor_area := none, price := none, property_features := ["a", "a"] }

/-- A property record with a single feature tag. -/
def singleFeatureRecord : PropertyDict :=
  { prop_id := "P1", prop_type := "house", full_address := "1 A B C 1", suburb := "B",
    bedrooms := none, bathrooms := none, parking_spaces := none,
    latitude := none, longitude := none, floor_number := none,
    land_area := none, floor_area := none, price := none, property_features := ["a"] }

/-- A concrete station for witness instantiations. -/
def alphaStation : Station :=
  { stop_id := "S1", stop_name := "Alpha", stop_lat := ⟨-37, 0⟩, stop_lon := ⟨145, 0⟩ }

-- ## Helper lemmas

/-- Success of an `Except` bind decomposes into successes of both stages. -/
theorem bindOk {α β : Type} {x : Except PyError α} {f : α → Except PyError β} {b : β} :
    (x >>= f) = Except.ok b ↔ ∃ a, x = Except.ok a ∧ f a = Except.ok b := by
  cases x <;> simp [Bind.bind, Except.bind]

/-- `pure` succeeds with exactly its argument. -/
theorem pureOk {β : Type} {a b : β} :
    (pure a : Except PyError β) = Except.ok b ↔ a = b := by
  simp [pure, Except.pure]

/-- `pyIndex` succeeds exactly on in-range indices. -/
theorem pyIndex_ok {α : Type} {l : List α} {i : Nat} {a : α} :
    pyIndex l i = Except.ok a ↔ l.get? i = some a := by
  unfold pyIndex; cases l.get? i <;> simp

/-- `pyNegIndex` succeeds exactly on in-range negative indices. -/
theorem pyNegIndex_ok {α : Type} {l : List α} {k : Nat} {a : α} :
    pyNegIndex l k = Except.ok a ↔ (0 < k ∧ k ≤ l.length) ∧ l.get? (l.length - k) = some a := by
  unfold pyNegIndex
  split_ifs with hc
  · cases hg : l.get? (l.length - k) <;> simp [hc, hg]
  · simp [hc]

/-- Anatomy of a successful `extract_information` run: every intermediate
read succeeds and the record is assembled from the pieces. -/
theorem extract_information_ok {s : String} {p : PropertyDict}
    (h : extract_information s = Except.ok p) :
    ∃ addr firstTok sub p5 lat p6 lon p0 bed bath park flr land fla pr p11,
      (strSplitOn s ',').get? 1 = some addr ∧
      (strSplitOn addr ' ').get? 0 = some firstTok ∧
      pyNegIndex (strSplitOn addr ' ') 3 = Except.ok sub ∧
      (strSplitOn s ',').get? 5 = some p5 ∧ parseLatitude p5 = Except.ok lat ∧
      (strSplitOn s ',').get? 6 = some p6 ∧ parseLongitude p6 = Except.ok lon ∧
      (strSplitOn s ',').get? 0 = some p0 ∧
      pyOptIntAt (strSplitOn s ',') 2 = Except.ok bed ∧
      pyOptIntAt (strSplitOn s ',') 3 = Except.ok bath ∧
      pyOptIntAt (strSplitOn s ',') 4 = Except.ok park ∧
      pyOptIntAt (strSplitOn s ',') 7 = Except.ok flr ∧
      pyOptIntAt (strSplitOn s ',') 8 = Except.ok land ∧
      pyOptIntAt (strSplitOn s ',') 9 = Except.ok fla ∧
      pyOptIntAt (strSplitOn s ',') 10 = Except.ok pr ∧
      (strSplitOn s ',').get? 11 = some p11 ∧
      p = { prop_id := p0,
            prop_type := if '/' ∈ firstTok.toList then "apartment" else "house",
            full_address := addr, suburb := sub, bedrooms := bed, bathrooms := bath,
            parking_spaces := park, latitude := lat, longitude := lon, floor_number := flr,
            land_area := land, floor_area := fla, price := pr,
            property_features := if p11 = "" then [] else strSplitOn p11 ';' } := by
  unfold extract_information at h
  rw [bindOk] at h; obtain ⟨addr, h1, h⟩ := h
  rw [bindOk] at h; obtain ⟨firstTok, h2, h⟩ := h
  rw [bindOk] at h; obtain ⟨sub, h3, h⟩ := h
  rw [bindOk] at h; obtain ⟨p5, h4, h⟩ := h
  rw [bindOk] at h; obtain ⟨lat, h5, h⟩ := h
  rw [bindOk] at h; obtain ⟨p6, h6, h⟩ := h
  rw [bindOk] at h; obtain ⟨lon, h7, h⟩ := h
  rw [bindOk] at h; obtain ⟨p0, h8, h⟩ := h
  rw [bindOk] at h; obtain ⟨bed, h9, h⟩ := h
  rw [bindOk] at h; obtain ⟨bath, h10, h⟩ := h
  rw [bindOk] at h; obtain ⟨park, h11, h⟩ := h
  rw [bindOk] at h; obtain ⟨flr, h12, h⟩ := h
  rw [bindOk] at h; obtain ⟨land, h13, h⟩ := h
  rw [bindOk] at h; obtain ⟨fla, h14, h⟩ := h
  rw [bindOk] at h; obtain ⟨pr, h15, h⟩ := h
  rw [bindOk] at h; obtain ⟨p11, h16, h⟩ := h
  rw [pureOk] at h
  rw [pyIndex_ok] at h1 h2 h4 h6 h8 h16
  exact ⟨addr, firstTok, sub, p5, lat, p6, lon, p0, bed, bath, park, flr, land, fla, pr, p11,
    h1, h2, h3, h4, h5, h6, h7, h8, h9, h10, h11, h12, h13, h14, h15, h16, h.symm⟩

/-- The cross-multiplied integer test computes the rational comparison. -/
theorem intLeDec_iff (k : Int) (d : Dec) : intLeDec k d = true ↔ (k : ℚ) ≤ d.val := by
  unfold intLeDec Dec.val
  rw [decide_eq_true_eq]
  have hpow : (0 : ℚ) < (10 : ℚ) ^ d.exp := by positivity
  rw [le_div_iff₀ hpow]
  constructor <;> intro hh <;> exact_mod_cast hh

/-- The cross-multiplied integer test computes the rational comparison. -/
theorem decLeInt_iff (d : Dec) (k : Int) : decLeInt d k = true ↔ d.val ≤ (k : ℚ) := by
  unfold decLeInt Dec.val
  rw [decide_eq_true_eq]
  have hpow : (0 : ℚ) < (10 : ℚ) ^ d.exp := by positivity
  rw [div_le_iff₀ hpow]
  constructor <;> intro hh <;> exact_mod_cast hh

-- ## Claim theorems

/-- C9: the haversine distance defined by the spec's formula is symmetric
in its two points, and the distance from any point to itself is zero. -/
theorem haversine_symm_and_self_zero (lat1 lon1 lat2 lon2 : ℝ) :
    haversine_distance lat1 lon1 lat2 lon2 = haversine_distance lat2 lon2 lat1 lon1 ∧
    haversine_distance lat1 lon1 lat1 lon1 = 0 := by
  constructor
  · have hsym : havTerm lat1 lon1 lat2 lon2 = havTerm lat2 lon2 lat1 lon1 := by
      unfold havTerm
      rw [show (toRad lat1 - toRad lat2) / 2 = -((toRad lat2 - toRad lat1) / 2) by ring]
      rw [show (toRad lon1 - toRad lon2) / 2 = -((toRad lon2 - toRad lon1) / 2) by ring]
      rw [Real.sin_neg, Real.sin_neg]
      ring
    unfold haversine_distance
    rw [hsym]
  · have hzero : havTerm lat1 lon1 lat1 lon1 = 0 := by
      unfold havTerm
      simp
    unfold haversine_distance
    rw [hzero, Real.sqrt_zero, sub_zero, Real.sqrt_one]
    have hat : atan2 0 1 = 0 := by
      unfold atan2
      rw [if_pos (by norm_num : (0 : ℝ) < 1)]
      simp [Real.arctan_zero]
    rw [hat]
    ring

/-- C6: with an empty station collection, `find_nearest_station` returns a
match with an absent nearest station for every property, and no error. -/
theorem empty_station_collection_yields_none (pid : String) (plat plon : Dec) :
    find_nearest_station pid plat plon [] =
      { property_id := pid, nearest_station := none } := rfl

/-- C3 (code bug): a line with fewer than 12 fields makes
`extract_information` raise `IndexError` as the claim says, but the driver
loop of `main` catches only `ValueError`, so the `IndexError` aborts the
whole run (no output at all) instead of being logged and skipped; lines
raising `ValueError` are skipped as designed. -/
theorem short_line_aborts_run :
    extract_information "P1,1 A B C 1,,,,,,,,," = Except.error PyError.indexError ∧
    mainProcess ["P1,1 A B C 1,,,,-38,145,,,,,", "P1,1 A B C 1,,,,,,,,,"] =
      Except.error PyError.indexError ∧
    mainProcess ["P1,1 A B C 1,,,,-38,145,,,,,", "P1,1 A B C 1,,,,95,145,,,,,"] =
      Except.ok [goodRecord] :=
  ⟨by decide, by decide, by decide⟩

/-- C10: duplicate-freeness of the feature list is not established at
construction — the valid 12-field line with features field `"a;a"` parses
to a record whose feature list repeats the tag — while the `add_feature`
mutation preserves duplicate-freeness. -/
theorem construction_allows_duplicate_features :
    (extract_information "P1,1 A B C 1,,,,,,,,,,a;a").map (fun q => q.property_features) =
      Except.ok ["a", "a"] ∧
    (∀ p f, p.property_features.Nodup → (add_feature p f).property_features.Nodup) := by
  refine ⟨by decide, ?_⟩
  intro p f hnd
  by_cases hf : f ∈ p.property_features
  · simp [add_feature, hf, hnd]
  · simp [add_feature, hf, List.nodup_append, hnd]

/-- C10 witness: `add_feature` applied at a concrete duplicate-free record
keeps the feature list duplicate-free. -/
theorem construction_allows_duplicate_features_witness :
    (add_feature singleFeatureRecord "b").property_features.Nodup :=
  construction_allows_duplicate_features.2 singleFeatureRecord "b" (by decide)

/-- C8 counterexample: on a record whose feature list already repeats a
tag (a state reachable by parsing, see the C10 theorem), calling
`add_feature` twice with that tag does not leave exactly one occurrence. -/
theorem add_feature_twice_on_dup_record :
    (add_feature (add_feature dupFeatureRecord "a") "a").property_features.count "a" ≠ 1 := by
  decide

/-- C8 (amended): if a record's feature list holds the tag at most once,
adding it twice leaves exactly one occurrence; `add_feature` on an
already-present tag is a no-op, and `remove_feature` on an absent tag is a
no-op without error. -/
theorem feature_mutation_behavior (p : PropertyDict) (f : String) :
    (p.property_features.count f ≤ 1 →
      (add_feature (add_feature p f) f).property_features.count f = 1) ∧
    (f ∈ p.property_features → add_feature p f = p) ∧
    (f ∉ p.property_features → remove_feature p f = p) := by
  refine ⟨?_, ?_, ?_⟩
  · intro hle
    by_cases hf : f ∈ p.property_features
    · have h1 : 0 < p.property_features.count f := List.count_pos_iff.mpr hf
      simp [add_feature, hf]
      omega
    · have h0 : p.property_features.count f = 0 := List.count_eq_zero.mpr hf
      simp [add_feature, hf, List.count_append, h0]
  · intro hf
    simp [add_feature, hf]
  · intro hf
    simp [remove_feature, hf]

/-- C8 witness: concrete instantiations of the three amended properties. -/
theorem feature_mutation_behavior_witness :
    ((add_feature (add_feature singleFeatureRecord "b") "b").property_features.count "b" = 1) ∧
    (add_feature singleFeatureRecord "a" = singleFeatureRecord) ∧
    (remove_feature singleFeatureRecord "z" = singleFeatureRecord) :=
  ⟨(feature_mutation_behavior singleFeatureRecord "b").1 (by decide),
   (feature_mutation_behavior singleFeatureRecord "a").2.1 (by decide),
   (feature_mutation_behavior singleFeatureRecord "z").2.2 (by decide)⟩

/-- C5 counterexample: the out-of-range latitude error and the
malformed-float error carry the same exception class `ValueError`, so the
validation error is not an error class distinct from the parse error. -/
theorem validation_and_parse_share_error_kind :
    extract_information "P1,1 A B C 1,,,,95,145,,,,," =
      Except.error (PyError.valueError
        "Latitude must be within the range -90 to 90 degrees.") ∧
    extract_information "P1,1 A B C 1,,,,abc,145,,,,," =
      Except.error (PyError.valueError "could not convert string to float: abc") ∧
    PyError.kindName (PyError.valueError
      "Latitude must be within the range -90 to 90 degrees.") =
      PyError.kindName (PyError.valueError "could not convert string to float: abc") :=
  ⟨by decide, by decide, by decide⟩

/-- C5 (amended): a non-empty coordinate field that parses as a float
raises `ValueError` exactly when the value lies outside the permitted
range (the boundaries `±90` / `±180` are accepted), but that error has the
same exception class, `ValueError`, as the error for malformed numeric
text — not a distinct one. -/
theorem coordinate_validation_bounds (s : String) (v : Dec) (hs : s ≠ "")
    (hv : pyFloat s = Except.ok v) :
    (parseLatitude s = (if v.val < -90 ∨ 90 < v.val then
        Except.error (PyError.valueError "Latitude must be within the range -90 to 90 degrees.")
      else Except.ok (some v))) ∧
    (parseLongitude s = (if v.val < -180 ∨ 180 < v.val then
        Except.error (PyError.valueError "Longitude must be within the range -180 to 180 degrees.")
      else Except.ok (some v))) ∧
    PyError.kindName (PyError.valueError
      "Latitude must be within the range -90 to 90 degrees.") = "ValueError" ∧
    (∀ t e, pyFloat t = Except.error e → PyError.kindName e = "ValueError") := by
  refine ⟨?_, ?_, rfl, ?_⟩
  · unfold parseLatitude
    rw [if_neg hs, hv]
    dsimp only
    have hiff : (intLeDec (-90) v = true ∧ decLeInt v 90 = true) ↔
        ((-90 : ℚ) ≤ v.val ∧ v.val ≤ (90 : ℚ)) := by
      rw [intLeDec_iff, decLeInt_iff]
      norm_cast
    by_cases hc : v.val < -90 ∨ 90 < v.val
    · have hnot : ¬(intLeDec (-90) v = true ∧ decLeInt v 90 = true) := by
        rw [hiff]
        rcases hc with hc | hc
        · intro hb; linarith [hb.1]
        · intro hb; linarith [hb.2]
      rw [if_pos hnot, if_pos hc]
    · have hyes : intLeDec (-90) v = true ∧ decLeInt v 90 = true := by
        rw [hiff]
        push_neg at hc
        exact ⟨hc.1, hc.2⟩
      rw [if_neg (fun hn => hn hyes), if_neg hc]
  · unfold parseLongitude
    rw [if_neg hs, hv]
    dsimp only
    have hiff : (intLeDec (-180) v = true ∧ decLeInt v 180 = true) ↔
        ((-180 : ℚ) ≤ v.val ∧ v.val ≤ (180 : ℚ)) := by
      rw [intLeDec_iff, decLeInt_iff]
      norm_cast
    by_cases hc : v.val < -180 ∨ 180 < v.val
    · have hnot : ¬(intLeDec (-180) v = true ∧ decLeInt v 180 = true) := by
        rw [hiff]
        rcases hc with hc | hc
        · intro hb; linarith [hb.1]
        · intro hb; linarith [hb.2]
      rw [if_pos hnot, if_pos hc]
    · have hyes : intLeDec (-180) v = true ∧ decLeInt v 180 = true := by
        rw [hiff]
        push_neg at hc
        exact ⟨hc.1, hc.2⟩
      rw [if_neg (fun hn => hn hyes), if_neg hc]
  · intro t e he
    unfold pyFloat at he
    cases hc : pyFloatCore t with
    | some d => rw [hc] at he; cases he
    | none => rw [hc] at he; cases he; rfl

/-- C5 witness: the theorem applied at the concrete field text "95". -/
theorem coordinate_validation_bounds_witness :
    (parseLatitude "95" = (if (Dec.val ⟨95, 0⟩) < -90 ∨ 90 < (Dec.val ⟨95, 0⟩) then
        Except.error (PyError.valueError "Latitude must be within the range -90 to 90 degrees.")
      else Except.ok (some ⟨95, 0⟩))) ∧
    (parseLongitude "95" = (if (Dec.val ⟨95, 0⟩) < -180 ∨ 180 < (Dec.val ⟨95, 0⟩) then
        Except.error (PyError.valueError "Longitude must be within the range -180 to 180 degrees.")
      else Except.ok (some ⟨95, 0⟩))) ∧
    PyError.kindName (PyError.valueError
      "Latitude must be within the range -90 to 90 degrees.") = "ValueError" ∧
    (∀ t e, pyFloat t = Except.error e → PyError.kindName e = "ValueError") :=
  coordinate_validation_bounds "95" ⟨95, 0⟩ (by decide) (by decide)

/-- C4 counterexample: a features field `"a; b"` is split without trimming,
so the parsed tags keep surrounding whitespace, unlike the trimmed tags the
claim describes. -/
theorem features_keep_whitespace :
    (extract_information "P1,1 A B C 1,,,,,,,,,,a; b").map (fun q => q.property_features) =
      Except.ok ["a", " b"] ∧
    ["a", " b"] ≠ trimmedFeatureSplit "a; b" :=
  ⟨by decide, by decide⟩

/-- C4 (amended): for every successfully parsed line, `property_features`
is the semicolon split of the raw features field with no per-tag trimming
when that field is non-empty, and the empty list when it is empty. -/
theorem features_split_no_trim (s : String) (p : PropertyDict)
    (h : extract_information s = Except.ok p) :
    ∃ f, (strSplitOn s ',').get? 11 = some f ∧
      p.property_features = (if f = "" then [] else strSplitOn f ';') := by
  obtain ⟨addr, firstTok, sub, p5, lat, p6, lon, p0, bed, bath, park, flr, land, fla, pr, p11,
    h1, h2, h3, h4, h5, h6, h7, h8, h9, h10, h11, h12, h13, h14, h15, h16, hp⟩ :=
    extract_information_ok h
  exact ⟨p11, h16, by rw [hp]⟩

/-- C4 witness: the amended theorem applied at a concrete line. -/
theorem features_split_no_trim_witness :
    ∃ f, (strSplitOn "P1,1 A B C 1,,,,,,,,,,a;b" ',').get? 11 = some f ∧
      featRecord.property_features = (if f = "" then [] else strSplitOn f ';') :=
  features_split_no_trim "P1,1 A B C 1,,,,,,,,,,a;b" featRecord (by decide)

/-- C7: for every successfully parsed line, the property type is
"apartment" exactly when the first space-delimited token of the address
field contains the unit separator and "house" otherwise, and the suburb is
the third-from-last space-delimited token of the address. -/
theorem prop_type_and_suburb_derivation (s : String) (p : PropertyDict)
    (h : extract_information s = Except.ok p) :
    ∃ addr, (strSplitOn s ',').get? 1 = some addr ∧ p.full_address = addr ∧
      (∃ t, (strSplitOn addr ' ').get? 0 = some t ∧
        (p.prop_type = "apartment" ↔ '/' ∈ t.toList) ∧
        ('/' ∉ t.toList → p.prop_type = "house")) ∧
      3 ≤ (strSplitOn addr ' ').length ∧
      (strSplitOn addr ' ').get? ((strSplitOn addr ' ').length - 3) = some p.suburb := by
  obtain ⟨addr, firstTok, sub, p5, lat, p6, lon, p0, bed, bath, park, flr, land, fla, pr, p11,
    h1, h2, h3, h4, h5, h6, h7, h8, h9, h10, h11, h12, h13, h14, h15, h16, hp⟩ :=
    extract_information_ok h
  rw [pyNegIndex_ok] at h3
  refine ⟨addr, h1, by rw [hp], ⟨firstTok, h2, ?_, ?_⟩, h3.1.2, by rw [hp]; exact h3.2⟩
  · rw [hp]
    by_cases hm : '/' ∈ firstTok.toList
    · simp [hm]
    · simp [hm]
  · intro hm
    rw [hp]
    simp only [String.toList] at hm
    simp [hm]

/-- C7 witness: the theorem applied at a concrete apartment line. -/
theorem prop_type_and_suburb_derivation_witness :
    ∃ addr, (strSplitOn "P2,1/5 A B C 1,,,,,,,,,," ',').get? 1 = some addr ∧
      aptRecord.full_address = addr ∧
      (∃ t, (strSplitOn addr ' ').get? 0 = some t ∧
        (aptRecord.prop_type = "apartment" ↔ '/' ∈ t.toList) ∧
        ('/' ∉ t.toList → aptRecord.prop_type = "house")) ∧
      3 ≤ (strSplitOn addr ' ').length ∧
      (strSplitOn addr ' ').get? ((strSplitOn addr ' ').length - 3) = some aptRecord.suburb :=
  prop_type_and_suburb_derivation "P2,1/5 A B C 1,,,,,,,,,," aptRecord (by decide)

/-- If no station strictly improves on the running minimum, the selection
loop keeps the current best candidate. -/
theorem nearestGo_no_improve (d : Station → ℝ) (sts : List Station) :
    ∀ (best : Option String) (minD : EReal),
      (∀ st ∈ sts, ¬(((d st : ℝ) : EReal) < minD)) → nearestGo d sts best minD = best := by
  induction sts with
  | nil => intro best minD h; rw [nearestGo]
  | cons st rest ih =>
    intro best minD h
    rw [nearestGo, if_neg (h st (by simp))]
    exact ih best minD (fun st2 hst2 => h st2 (by simp [hst2]))

/-- If some station strictly improves on the running minimum, the selection
loop returns the name of the first station attaining the minimal distance
among the improving ones: it beats the threshold, no station is strictly
closer, and every earlier station is strictly farther. -/
theorem nearestGo_improve (d : Station → ℝ) (sts : List Station) :
    ∀ (best : Option String) (minD : EReal),
      (∃ st ∈ sts, ((d st : ℝ) : EReal) < minD) →
      ∃ i : Fin sts.length,
        nearestGo d sts best minD = some (sts.get i).stop_name ∧
        ((d (sts.get i) : ℝ) : EReal) < minD ∧
        (∀ j : Fin sts.length, d (sts.get i) ≤ d (sts.get j)) ∧
        (∀ j : Fin sts.length, j.val < i.val → d (sts.get i) < d (sts.get j)) := by
  induction sts with
  | nil => intro best minD hex; simp at hex
  | cons st rest ih =>
    intro best minD hex
    by_cases h1 : ((d st : ℝ) : EReal) < minD
    · by_cases h2 : ∃ st2 ∈ rest, ((d st2 : ℝ) : EReal) < ((d st : ℝ) : EReal)
      · obtain ⟨i, hres, hlt, hmin, hfirst⟩ := ih (some st.stop_name) ((d st : ℝ) : EReal) h2
        refine ⟨⟨i.val + 1, Nat.succ_lt_succ i.isLt⟩, ?_, ?_, ?_, ?_⟩
        · rw [nearestGo, if_pos h1, hres]
          rfl
        · exact lt_trans hlt h1
        · intro j
          rcases j with ⟨jv, hj⟩
          cases jv with
          | zero => exact le_of_lt (EReal.coe_lt_coe_iff.mp hlt)
          | succ jj => exact hmin ⟨jj, Nat.lt_of_succ_lt_succ hj⟩
        · intro j hji
          rcases j with ⟨jv, hj⟩
          cases jv with
          | zero => exact EReal.coe_lt_coe_iff.mp hlt
          | succ jj =>
            exact hfirst ⟨jj, Nat.lt_of_succ_lt_succ hj⟩ (Nat.lt_of_succ_lt_succ hji)
      · push_neg at h2
        have hres := nearestGo_no_improve d rest (some st.stop_name) ((d st : ℝ) : EReal)
          (fun st2 hst2 => not_lt.mpr (h2 st2 hst2))
        refine ⟨⟨0, Nat.succ_pos _⟩, ?_, h1, ?_, ?_⟩
        · rw [nearestGo, if_pos h1, hres]
          rfl
        · intro j
          rcases j with ⟨jv, hj⟩
          cases jv with
          | zero => exact le_refl _
          | succ jj =>
            have hmem : rest.get ⟨jj, Nat.lt_of_succ_lt_succ hj⟩ ∈ rest := List.get_mem _ _ _
            exact EReal.coe_le_coe_iff.mp (h2 _ hmem)
        · intro j hj0
          exact absurd hj0 (Nat.not_lt_zero _)
    · have hex2 : ∃ st2 ∈ rest, ((d st2 : ℝ) : EReal) < minD := by
        obtain ⟨st2, hmem, hlt⟩ := hex
        rcases List.mem_cons.mp hmem with heq | hmem2
        · exact absurd (heq ▸ hlt) h1
        · exact ⟨st2, hmem2, hlt⟩
      obtain ⟨i, hres, hlt, hmin, hfirst⟩ := ih best minD hex2
      have hle : minD ≤ ((d st : ℝ) : EReal) := not_lt.mp h1
      have hlt2 : ((d (rest.get i) : ℝ) : EReal) < ((d st : ℝ) : EReal) := lt_of_lt_of_le hlt hle
      refine ⟨⟨i.val + 1, Nat.succ_lt_succ i.isLt⟩, ?_, hlt, ?_, ?_⟩
      · rw [nearestGo, if_neg h1, hres]
        rfl
      · intro j
        rcases j with ⟨jv, hj⟩
        cases jv with
        | zero => exact le_of_lt (EReal.coe_lt_coe_iff.mp hlt2)
        | succ jj => exact hmin ⟨jj, Nat.lt_of_succ_lt_succ hj⟩
      · intro j hji
        rcases j with ⟨jv, hj⟩
        cases jv with
        | zero => exact EReal.coe_lt_coe_iff.mp hlt2
        | succ jj =>
          exact hfirst ⟨jj, Nat.lt_of_succ_lt_succ hj⟩ (Nat.lt_of_succ_lt_succ hji)

/-- C1: for every property position and non-empty station collection,
`find_nearest_station` returns the name of a station whose haversine
distance to the property is minimal over all stations, and among those
attaining the minimum the first one in iteration order: every earlier
station is strictly farther, so a later station with an equal distance
never replaces the current best. -/
theorem find_nearest_station_first_minimum (pid : String) (plat plon : Dec)
    (stations : List Station) (hne : stations ≠ []) :
    ∃ i : Fin stations.length,
      (find_nearest_station pid plat plon stations).nearest_station =
        some (stations.get i).stop_name ∧
      (∀ j : Fin stations.length,
        stationDistance plat plon (stations.get i) ≤
          stationDistance plat plon (stations.get j)) ∧
      (∀ j : Fin stations.length, j.val < i.val →
        stationDistance plat plon (stations.get i) <
          stationDistance plat plon (stations.get j)) := by
  obtain ⟨st0, rest, rfl⟩ : ∃ st0 rest, stations = st0 :: rest := by
    cases stations with
    | nil => exact absurd rfl hne
    | cons a l => exact ⟨a, l, rfl⟩
  obtain ⟨i, hres, hlt, hmin, hfirst⟩ :=
    nearestGo_improve (stationDistance plat plon) (st0 :: rest) none ⊤
      ⟨st0, by simp, EReal.coe_lt_top _⟩
  exact ⟨i, hres, hmin, hfirst⟩

/-- C1 witness: the theorem applied to a concrete property and a
single-station collection. -/
theorem find_nearest_station_first_minimum_witness :
    ∃ i : Fin ([alphaStation].length),
      (find_nearest_station "P1" ⟨-38, 0⟩ ⟨145, 0⟩ [alphaStation]).nearest_station =
        some (([alphaStation].get i)).stop_name ∧
      (∀ j : Fin ([alphaStation].length),
        stationDistance ⟨-38, 0⟩ ⟨145, 0⟩ ([alphaStation].get i) ≤
          stationDistance ⟨-38, 0⟩ ⟨145, 0⟩ ([alphaStation].get j)) ∧
      (∀ j : Fin ([alphaStation].length), j.val < i.val →
        stationDistance ⟨-38, 0⟩ ⟨145, 0⟩ ([alphaStation].get i) <
          stationDistance ⟨-38, 0⟩ ⟨145, 0⟩ ([alphaStation].get j)) :=
  find_nearest_station_first_minimum "P1" ⟨-38, 0⟩ ⟨145, 0⟩ [alphaStation] (by decide)

/-- Updating an existing key keeps the key list unchanged; inserting a new
key appends it at the end. -/
theorem dictInsert_fst (k : String) (v : PropertyDict) (d : List (String × PropertyDict)) :
    (dictInsert k v d).map Prod.fst =
      if d.any (fun kv => kv.1 = k) then d.map Prod.fst else d.map Prod.fst ++ [k] := by
  unfold dictInsert
  split_ifs with hc
  · rw [List.map_map]
    apply List.map_congr_left
    intro kv hkv
    by_cases he : kv.1 = k
    · simp [he]
    · simp [he]
  · simp

/-- Membership in the key list after an insertion. -/
theorem mem_dictInsert_fst {k pid : String} {v : PropertyDict}
    {d : List (String × PropertyDict)} :
    pid ∈ (dictInsert k v d).map Prod.fst ↔ pid ∈ d.map Prod.fst ∨ pid = k := by
  rw [dictInsert_fst]
  split_ifs with hc
  · constructor
    · exact Or.inl
    · rintro (hm | rfl)
      · exact hm
      · simp only [List.any_eq_true, decide_eq_true_eq] at hc
        obtain ⟨kv, hkv, he⟩ := hc
        exact List.mem_map.mpr ⟨kv, hkv, he⟩
  · simp [List.mem_append]

/-- The key list stays duplicate-free under insertion. -/
theorem nodup_dictInsert {k : String} {v : PropertyDict} {d : List (String × PropertyDict)}
    (h : (d.map Prod.fst).Nodup) : ((dictInsert k v d).map Prod.fst).Nodup := by
  rw [dictInsert_fst]
  split_ifs with hc
  · exact h
  · have hk : k ∉ d.map Prod.fst := by
      simp only [List.any_eq_true, decide_eq_true_eq] at hc
      intro hmem
      obtain ⟨kv, hkv, he⟩ := List.mem_map.mp hmem
      exact hc ⟨kv, hkv, he⟩
    exact h.append (List.nodup_singleton k) (by simpa [List.disjoint_singleton] using hk)

/-- Every pair of the updated dict is the inserted pair or an old pair. -/
theorem mem_dictInsert_pairs {k : String} {v : PropertyDict}
    {d : List (String × PropertyDict)} {kv : String × PropertyDict}
    (h : kv ∈ dictInsert k v d) : kv = (k, v) ∨ kv ∈ d := by
  unfold dictInsert at h
  split_ifs at h with hc
  · obtain ⟨kv0, hkv0, he⟩ := List.mem_map.mp h
    by_cases h0 : kv0.1 = k
    · rw [if_pos h0] at he
      exact Or.inl he.symm
    · rw [if_neg h0] at he
      exact Or.inr (he ▸ hkv0)
  · rcases List.mem_append.mp h with hm | hm
    · exact Or.inr hm
    · exact Or.inl (List.mem_singleton.mp hm)

/-- Invariant of the `process_properties` loop, generalized over the
accumulator: keys stay duplicate-free, every entry is keyed by its record
id, and an id is retained exactly when it was already in the accumulator
or some line parses to a record with that id and truthy coordinates. -/
theorem processPropLines_spec (ls : List String) :
    ∀ (acc props : List (String × PropertyDict)),
      processPropLines ls acc = Except.ok props →
      ((acc.map Prod.fst).Nodup → (props.map Prod.fst).Nodup) ∧
      ((∀ kv ∈ acc, kv.1 = kv.2.prop_id) → (∀ kv ∈ props, kv.1 = kv.2.prop_id)) ∧
      (∀ pid, pid ∈ props.map Prod.fst ↔ pid ∈ acc.map Prod.fst ∨
        ∃ l ∈ ls, ∃ q, extract_information l = Except.ok q ∧
          pyTruthy q.latitude = true ∧ pyTruthy q.longitude = true ∧ q.prop_id = pid) := by
  induction ls with
  | nil =>
    intro acc props h
    rw [processPropLines, Except.ok.injEq] at h
    subst h
    refine ⟨fun hx => hx, fun hx => hx, ?_⟩
    simp
  | cons l ls ih =>
    intro acc props h
    rw [processPropLines] at h
    cases hq : extract_information l with
    | error e =>
      rw [hq] at h
      cases h
    | ok q =>
      rw [hq] at h
      dsimp only at h
      by_cases hcond : (pyTruthy q.latitude && pyTruthy q.longitude) = true
      · rw [if_pos hcond] at h
        obtain ⟨ihN, ihI, ihM⟩ := ih (dictInsert q.prop_id q acc) props h
        rw [Bool.and_eq_true] at hcond
        refine ⟨?_, ?_, ?_⟩
        · intro hacc
          exact ihN (nodup_dictInsert hacc)
        · intro hinv
          apply ihI
          intro kv hkv
          rcases mem_dictInsert_pairs hkv with rfl | hold
          · rfl
          · exact hinv kv hold
        · intro pid
          rw [ihM pid, mem_dictInsert_fst]
          constructor
          · rintro ((hm | rfl) | ⟨l2, hl2, q2, hq2, ha, hb, hid⟩)
            · exact Or.inl hm
            · exact Or.inr ⟨l, List.mem_cons_self _ _, q, hq, hcond.1, hcond.2, rfl⟩
            · exact Or.inr ⟨l2, List.mem_cons_of_mem _ hl2, q2, hq2, ha, hb, hid⟩
          · rintro (hm | ⟨l2, hl2, q2, hq2, ha, hb, hid⟩)
            · exact Or.inl (Or.inl hm)
            · rcases List.mem_cons.mp hl2 with rfl | hl2r
              · rw [hq, Except.ok.injEq] at hq2
                subst hq2
                exact Or.inl (Or.inr hid.symm)
              · exact Or.inr ⟨l2, hl2r, q2, hq2, ha, hb, hid⟩
      · rw [if_neg hcond] at h
        obtain ⟨ihN, ihI, ihM⟩ := ih acc props h
        refine ⟨ihN, ihI, ?_⟩
        intro pid
        rw [ihM pid]
        constructor
        · rintro (hm | ⟨l2, hl2, q2, hq2, ha, hb, hid⟩)
          · exact Or.inl hm
          · exact Or.inr ⟨l2, List.mem_cons_of_mem _ hl2, q2, hq2, ha, hb, hid⟩
        · rintro (hm | ⟨l2, hl2, q2, hq2, ha, hb, hid⟩)
          · exact Or.inl hm
          · rcases List.mem_cons.mp hl2 with rfl | hl2r
            · rw [hq, Except.ok.injEq] at hq2
              subst hq2
              exact absurd (by rw [Bool.and_eq_true]; exact ⟨ha, hb⟩) hcond
            · exact Or.inr ⟨l2, hl2r, q2, hq2, ha, hb, hid⟩

/-- C2 counterexample: the line `"P9,1 A B C 1,,,,0.0,145.0,,,,,"` parses
to a record with both coordinates present (non-null), yet the Python
truthiness filter drops it (latitude `0.0` is falsy), so it yields no
entry in the resolver output. -/
theorem present_zero_coordinate_excluded :
    (extract_information "P9,1 A B C 1,,,,0.0,145.0,,,,,").map
      (fun q => (q.latitude.isSome, q.longitude.isSome)) = Except.ok (true, true) ∧
    process_properties ["P9,1 A B C 1,,,,0.0,145.0,,,,,"] = Except.ok [] :=
  ⟨by decide, by decide⟩

/-- C2 (amended): every parsed record whose coordinates are both truthy
(present and nonzero — Python truthiness treats `0.0` like a missing
value) is retained, with exactly one dict entry per retained property id
(later duplicates overwrite in place), and the resolver emits exactly one
`NearestMatch` per retained entry, carrying that id; ids of records with a
missing or zero coordinate appear only if another record with the same id
is retained. -/
theorem retained_ids_characterization (lines : List String)
    (props : List (String × PropertyDict))
    (h : process_properties lines = Except.ok props) :
    ((props.map Prod.fst).Nodup) ∧
    (∀ pid, pid ∈ props.map Prod.fst ↔ ∃ l ∈ lines, ∃ q,
      extract_information l = Except.ok q ∧
      pyTruthy q.latitude = true ∧ pyTruthy q.longitude = true ∧ q.prop_id = pid) ∧
    (∀ stations, ∃ res, process_data lines stations = Except.ok res ∧
      res.map NearestMatch.property_id = props.map Prod.fst) := by
  unfold process_properties at h
  obtain ⟨hN, hI, hM⟩ := processPropLines_spec lines [] props h
  have hNodup := hN (by simp)
  have hInv := hI (by simp)
  refine ⟨hNodup, ?_, ?_⟩
  · intro pid
    rw [hM pid]
    simp
  · intro stations
    refine ⟨props.map (fun kv => find_nearest_station kv.2.prop_id (kv.2.latitude.getD ⟨0, 0⟩)
      (kv.2.longitude.getD ⟨0, 0⟩) stations), ?_, ?_⟩
    · unfold process_data process_properties
      rw [h]
      rfl
    · rw [List.map_map]
      apply List.map_congr_left
      intro kv hkv
      exact (hInv kv hkv).symm

/-- C2 witness: the theorem applied to a one-line input retaining one
record. -/
theorem retained_ids_characterization_witness :
    ((([("P1", goodRecord)]).map Prod.fst).Nodup) ∧
    (∀ pid, pid ∈ ([("P1", goodRecord)]).map Prod.fst ↔
      ∃ l ∈ ["P1,1 A B C 1,,,,-38,145,,,,,"], ∃ q,
        extract_information l = Except.ok q ∧
        pyTruthy q.latitude = true ∧ pyTruthy q.longitude = true ∧ q.prop_id = pid) ∧
    (∀ stations, ∃ res,
      process_data ["P1,1 A B C 1,,,,-38,145,,,,,"] stations = Except.ok res ∧
      res.map NearestMatch.property_id = ([("P1", goodRecord)]).map Prod.fst) :=
  retained_ids_characterization ["P1,1 A B C 1,,,,-38,145,,,,,"] [("P1", goodRecord)]
    (by decide)
